import Mathlib

/-!
# BH1750 light-sensor driver (`lightt.c`) and character-device module (`majorminor.c`)

A shallow embedding of the two kernel modules of the repository.

* Global variables of a module become the fields of a state record.
* Every call into the kernel (`i2c_get_adapter`, `kthread_run`, `pr_err`, ...) is appended
  to the field `calls` of the state, in program order, together with its arguments and
  its result.
* The result of a kernel call is not computed by the module; it is an argument of the
  embedded function (the answer of the environment).
-/

namespace BH1750

/-! ## Kernel pointers and error pointers -/

/-- A kernel pointer as the driver can tell it apart: `NULL`, an error pointer, or a pointer
to an object.  `err n` is `ERR_PTR(-(n+1))`, so the encoded error numbers are exactly
`1 .. MAX_ERRNO` with `MAX_ERRNO = 4095` as in `linux/err.h`. -/
inductive Ptr where
  | null : Ptr
  | err (n : Fin 4095) : Ptr
  | obj (id : Nat) : Ptr
  deriving DecidableEq, Repr

/-- The C test `!p` / `p == NULL`. -/
def Ptr.isNull : Ptr → Bool
  | .null => true
  | _ => false

/-- The kernel's `IS_ERR(p)`: true exactly for error pointers (in particular false for `NULL`). -/
def IS_ERR : Ptr → Bool
  | .err _ => true
  | _ => false

/-- The kernel's `PTR_ERR(p)` for an error pointer: the negative error number it encodes.
The driver evaluates it only under `IS_ERR(p)`; on other pointers the model returns `0`. -/
def PTR_ERR : Ptr → Int
  | .err n => Int.negSucc n.val
  | _ => 0

/-- `ENODEV` from `errno-base.h`. -/
def ENODEV : Int := 19

/-! ## Constants of `lightt.c` -/

/-- `#define I2C_BUS_AVAILABLE (1)` -/
def I2C_BUS_AVAILABLE : Nat := 1

/-- `#define SLAVE_DEVICE_NAME ("BH1750")` -/
def SLAVE_DEVICE_NAME : String := "BH1750"

/-- `#define BH1750_SLAVE_ADDR (0x23)` -/
def BH1750_SLAVE_ADDR : Nat := 0x23

/-! ## Calls into the kernel -/

/-- One call from the driver into the kernel, with its arguments and (where the driver
looks at it) its result. -/
inductive Call where
  /-- `i2c_master_recv(client, data, count)` returning `ret` -/
  | i2c_master_recv (client : Ptr) (count : Nat) (ret : Int)
  /-- `pr_err(fmt, args...)` -/
  | pr_err (fmt : String) (args : List Int)
  /-- `pr_info(fmt, args...)` -/
  | pr_info (fmt : String) (args : List Int)
  /-- `kthread_should_stop()` returning `stop` -/
  | kthread_should_stop (stop : Bool)
  /-- `msleep(ms)` -/
  | msleep (ms : Nat)
  /-- `kthread_run(bh1750_read_thread, NULL, name)` returning `result` -/
  | kthread_run (name : String) (result : Ptr)
  /-- `kthread_stop(task)` -/
  | kthread_stop (task : Ptr)
  /-- `i2c_get_adapter(nr)` returning `result` -/
  | i2c_get_adapter (nr : Nat) (result : Ptr)
  /-- `i2c_new_client_device(adapter, &info)` with `info = I2C_BOARD_INFO(type, addr)` -/
  | i2c_new_client_device (adapter : Ptr) (type : String) (addr : Nat) (result : Ptr)
  /-- `i2c_add_driver(&bh1750_driver)` returning `ret` -/
  | i2c_add_driver (ret : Int)
  /-- `i2c_del_driver(&bh1750_driver)` -/
  | i2c_del_driver
  /-- `i2c_unregister_device(client)` -/
  | i2c_unregister_device (client : Ptr)
  /-- `i2c_put_adapter(adapter)` -/
  | i2c_put_adapter (adapter : Ptr)
  deriving DecidableEq, Repr

/-! ## Driver state -/

/-- The file-scope variables of `lightt.c` and the history of kernel calls. -/
structure State where
  /-- `static struct i2c_adapter *bh1750_i2c_adapter` -/
  bh1750_i2c_adapter : Ptr
  /-- `static struct i2c_client *bh1750_i2c_client` -/
  bh1750_i2c_client : Ptr
  /-- `static u16 light_intensity` -/
  light_intensity : Nat
  /-- `static struct task_struct *bh1750_thread` -/
  bh1750_thread : Ptr
  /-- kernel calls made so far, oldest first -/
  calls : List Call
  deriving DecidableEq, Repr

/-- The state at module load: the initialisers `= NULL` and zeroed static storage. -/
def State.initial : State :=
  { bh1750_i2c_adapter := .null, bh1750_i2c_client := .null, light_intensity := 0,
    bh1750_thread := .null, calls := [] }

/-- Record one kernel call. -/
def State.call (s : State) (c : Call) : State :=
  { s with calls := s.calls ++ [c] }

/-! ## Reading the sensor -/

/-- What `i2c_master_recv(bh1750_i2c_client, data, 2)` leaves behind: its return value and
the contents of the local buffer `unsigned char data[2]` after the call (bytes the transfer
did not write keep whatever the stack held). -/
structure Recv where
  ret : Int
  data0 : Nat
  data1 : Nat
  deriving DecidableEq, Repr

/-- The function `bh1750_read_light_intensity`. -/
def bh1750_read_light_intensity (r : Recv) (s : State) : Int × State :=
  let ret := r.ret
  let s := s.call (.i2c_master_recv s.bh1750_i2c_client 2 ret)
  if ret < 0 then
    (ret, s.call (.pr_err "BH1750: I2C read failed (%d)\n" [ret]))
  else
    -- unsigned char operands, result stored in a u16
    let s := { s with light_intensity := (((r.data0 % 256) <<< 8) ||| (r.data1 % 256)) % 65536 }
    (0, s.call (.pr_info "BH1750: Light intensity: %u\n" [(s.light_intensity : Int)]))

/-! ## The sampler thread -/

/-- What the environment answers during one pass of the loop of `bh1750_read_thread`:
either `kthread_should_stop()` is true, or it is false and the bus read of this pass
behaves as `r`. -/
inductive Cycle where
  | stop : Cycle
  | read (r : Recv) : Cycle
  deriving DecidableEq, Repr

/-- The function `bh1750_read_thread`, run against the answers `script` of the environment.
The result is `some v` when the function has returned `v`, and `none` when the answers are
used up and the loop is still running. -/
def bh1750_read_thread : List Cycle → State → Option Int × State
  | [], s => (none, s)
  | .stop :: _, s => (some 0, s.call (.kthread_should_stop true))
  | .read r :: script, s =>
    let s := s.call (.kthread_should_stop false)
    -- the value returned by bh1750_read_light_intensity() is dropped
    let s := (bh1750_read_light_intensity r s).2
    let s := s.call (.msleep 5000)
    bh1750_read_thread script s

/-! ## Bind and unbind callbacks -/

/-- The function `bh1750_probe`; `kthread_run` is the pointer returned by `kthread_run`. -/
def bh1750_probe (client : Ptr) (kthread_run : Ptr) (s : State) : Int × State :=
  let s := { s with bh1750_i2c_client := client }
  let s := { s with bh1750_thread := kthread_run }.call
    (.kthread_run "bh1750_read_thread" kthread_run)
  if IS_ERR s.bh1750_thread then
    (PTR_ERR s.bh1750_thread, s.call (.pr_err "Failed to create kernel thread\n" []))
  else
    (0, s.call (.pr_info "BH1750 probe successful\n" []))

/-- The function `bh1750_remove` (its argument `client` is unused). -/
def bh1750_remove (_client : Ptr) (s : State) : State :=
  if !s.bh1750_thread.isNull then
    s.call (.kthread_stop s.bh1750_thread)
  else
    s

/-! ## Module load and unload -/

/-- The answers of the kernel to the three acquisitions of `bh1750_init_module`.  An answer
is looked at only if the function gets as far as making the call. -/
structure InitEnv where
  /-- pointer returned by `i2c_get_adapter(I2C_BUS_AVAILABLE)` -/
  i2c_get_adapter : Ptr
  /-- pointer returned by `i2c_new_client_device(...)` -/
  i2c_new_client_device : Ptr
  /-- value returned by `i2c_add_driver(&bh1750_driver)` -/
  i2c_add_driver : Int
  deriving DecidableEq, Repr

/-- The function `bh1750_init_module`. -/
def bh1750_init_module (env : InitEnv) (s : State) : Int × State :=
  let s := { s with bh1750_i2c_adapter := env.i2c_get_adapter }.call
    (.i2c_get_adapter I2C_BUS_AVAILABLE env.i2c_get_adapter)
  if s.bh1750_i2c_adapter.isNull then
    (-ENODEV, s.call (.pr_err "BH1750: Could not get I2C adapter\n" []))
  else
    let s := { s with bh1750_i2c_client := env.i2c_new_client_device }.call
      (.i2c_new_client_device s.bh1750_i2c_adapter SLAVE_DEVICE_NAME BH1750_SLAVE_ADDR
        env.i2c_new_client_device)
    if s.bh1750_i2c_client.isNull then
      let s := s.call (.pr_err "BH1750: Could not create I2C client\n" [])
      let s := s.call (.i2c_put_adapter s.bh1750_i2c_adapter)
      (-ENODEV, s)
    else
      let ret := env.i2c_add_driver
      let s := s.call (.i2c_add_driver ret)
      if ret < 0 then
        let s := s.call (.pr_err "BH1750: Could not register I2C driver\n" [])
        let s := s.call (.i2c_unregister_device s.bh1750_i2c_client)
        let s := s.call (.i2c_put_adapter s.bh1750_i2c_adapter)
        (ret, s)
      else
        (0, s)

/-- The function `bh1750_exit_module`. -/
def bh1750_exit_module (s : State) : State :=
  let s := s.call .i2c_del_driver
  let s := s.call (.i2c_unregister_device s.bh1750_i2c_client)
  s.call (.i2c_put_adapter s.bh1750_i2c_adapter)

/-- The calls made on the way from state `s` to the later state `t`. -/
def issued (s t : State) : List Call := t.calls.drop s.calls.length

/-! ## Resources seen in a history of calls -/

/-- The three things `bh1750_init_module` acquires. -/
inductive Resource where
  | adapter (p : Ptr) : Resource
  | device (p : Ptr) : Resource
  | driver : Resource
  deriving DecidableEq, Repr

/-- The resource a call hands to the driver: a reference to an adapter, a device handle, or
the registration of the driver (`i2c_add_driver` returning 0).  Calls that fail hand over
nothing. -/
def Call.acquires : Call → Option Resource
  | .i2c_get_adapter _ (.obj a) => some (.adapter (.obj a))
  | .i2c_new_client_device _ _ _ (.obj c) => some (.device (.obj c))
  | .i2c_add_driver ret => if ret = 0 then some .driver else none
  | _ => none

/-- The resource a call gives back.  `i2c_put_adapter(NULL)` and
`i2c_unregister_device(NULL)` return at once in the kernel and give back nothing. -/
def Call.releases : Call → Option Resource
  | .i2c_put_adapter .null => none
  | .i2c_put_adapter p => some (.adapter p)
  | .i2c_unregister_device .null => none
  | .i2c_unregister_device p => some (.device p)
  | .i2c_del_driver => some .driver
  | _ => none

/-- Resources acquired in a history, in order. -/
def acquired (cs : List Call) : List Resource := cs.filterMap Call.acquires

/-- Resources released in a history, in order. -/
def released (cs : List Call) : List Resource := cs.filterMap Call.releases

/-- A history releases only what it acquired, each acquired resource exactly once. -/
def ReleasesOnlyAcquired (cs : List Call) : Prop :=
  (∀ r ∈ released cs, r ∈ acquired cs) ∧ (∀ r ∈ acquired cs, (released cs).count r = 1)

instance (cs : List Call) : Decidable (ReleasesOnlyAcquired cs) := by
  unfold ReleasesOnlyAcquired; infer_instance

end BH1750

/-! # The character-device module `majorminor.c` -/

namespace MajorMinor

/-- `MINORBITS` of `linux/kdev_t.h`. -/
def MINORBITS : Nat := 20

/-- `MKDEV(ma, mi)` of `linux/kdev_t.h`, on the 32-bit `dev_t`. -/
def MKDEV (ma mi : Nat) : Nat := ((ma <<< MINORBITS) ||| mi) % 2 ^ 32

/-- `MAJOR(dev)` of `linux/kdev_t.h`. -/
def MAJOR (dev : Nat) : Nat := dev >>> MINORBITS

/-- `MINOR(dev)` of `linux/kdev_t.h`. -/
def MINOR (dev : Nat) : Nat := dev &&& (2 ^ MINORBITS - 1)

/-- `dev_t dev = MKDEV(233,0);` -/
def dev : Nat := MKDEV 233 0

/-- Calls of the module into the kernel. -/
inductive Call where
  /-- `register_chrdev_region(first, count, name)` returning `ret` -/
  | register_chrdev_region (first : Nat) (count : Nat) (name : String) (ret : Int)
  /-- `unregister_chrdev_region(first, count)` -/
  | unregister_chrdev_region (first : Nat) (count : Nat)
  /-- `printk(KERN_INFO fmt, args...)` -/
  | printk_info (fmt : String) (args : List Nat)
  deriving DecidableEq, Repr

/-- The function `hello_world_init`; `register_ret` is what `register_chrdev_region`
returns.  The history of kernel calls is the only state. -/
def hello_world_init (register_ret : Int) (calls : List Call) : Int × List Call :=
  let calls := calls ++ [.register_chrdev_region dev 1 "akshat dev" register_ret]
  let calls := calls ++ [.printk_info "Major =%d Minor = %d \n" [MAJOR dev, MINOR dev]]
  let calls := calls ++ [.printk_info "Kernel Module Inserted Successfully...\n" []]
  (0, calls)

/-- The function `hello_world_exit`. -/
def hello_world_exit (calls : List Call) : List Call :=
  let calls := calls ++ [.unregister_chrdev_region dev 1]
  calls ++ [.printk_info "Kernel Module Removed Successfully...\n" []]

end MajorMinor

namespace BH1750

theorem shl8_or_eq (b0 b1 : Nat) (h1 : b1 < 256) : (b0 <<< 8) ||| b1 = 256 * b0 + b1 := by
  have h := Nat.mul_add_lt_is_or (i := 8) (b := b1) (by simpa using h1) b0
  rw [Nat.shiftLeft_eq, Nat.mul_comm b0, ← h]

/-- C1: a successful 2-byte read `(b0, b1)` makes `bh1750_read_light_intensity` return 0 and
store `light_intensity = (b0 << 8) | b1 = 256*b0 + b1`, a value below `2^16`; the other
variables are untouched.  The four values named by the specification are instances. -/
theorem C1_read_decodes (b0 b1 : Nat) (h0 : b0 < 256) (h1 : b1 < 256) (s : State) :
    (bh1750_read_light_intensity ⟨2, b0, b1⟩ s).1 = 0 ∧
    (bh1750_read_light_intensity ⟨2, b0, b1⟩ s).2.light_intensity = ((b0 <<< 8) ||| b1) ∧
    (bh1750_read_light_intensity ⟨2, b0, b1⟩ s).2.light_intensity = 256 * b0 + b1 ∧
    (bh1750_read_light_intensity ⟨2, b0, b1⟩ s).2.light_intensity < 65536 ∧
    (bh1750_read_light_intensity ⟨2, b0, b1⟩ s).2.bh1750_i2c_adapter = s.bh1750_i2c_adapter ∧
    (bh1750_read_light_intensity ⟨2, b0, b1⟩ s).2.bh1750_i2c_client = s.bh1750_i2c_client ∧
    (bh1750_read_light_intensity ⟨2, b0, b1⟩ s).2.bh1750_thread = s.bh1750_thread ∧
    (bh1750_read_light_intensity ⟨2, b0, b1⟩ s).2.calls =
      s.calls ++ [.i2c_master_recv s.bh1750_i2c_client 2 2,
                  .pr_info "BH1750: Light intensity: %u\n" [((256 * b0 + b1 : Nat) : Int)]] ∧
    (bh1750_read_light_intensity ⟨2, 0x00, 0x00⟩ s).2.light_intensity = 0 ∧
    (bh1750_read_light_intensity ⟨2, 0xFF, 0xFF⟩ s).2.light_intensity = 65535 ∧
    (bh1750_read_light_intensity ⟨2, 0x01, 0x00⟩ s).2.light_intensity = 256 ∧
    (bh1750_read_light_intensity ⟨2, 0x01, 0x2C⟩ s).2.light_intensity = 300 := by
  have hor := shl8_or_eq b0 b1 h1
  have hlt : 256 * b0 + b1 < 65536 := by omega
  simp [bh1750_read_light_intensity, State.call, Nat.mod_eq_of_lt h0, Nat.mod_eq_of_lt h1,
    hor, Nat.mod_eq_of_lt hlt]
  exact hlt

theorem C1_read_decodes_witness :
    (bh1750_read_light_intensity ⟨2, 0x01, 0x2C⟩ State.initial).1 = 0 ∧
    (bh1750_read_light_intensity ⟨2, 0x01, 0x2C⟩ State.initial).2.light_intensity = 300 :=
  ⟨(C1_read_decodes 0x01 0x2C (by decide) (by decide) State.initial).1,
   (C1_read_decodes 0x01 0x2C (by decide) (by decide) State.initial).2.2.2.2.2.2.2.2.2.2.2⟩

/-! ## The sampler loop -/

theorem read_error_keeps (e : Recv) (he : e.ret < 0) (s : State) :
    (bh1750_read_light_intensity e s).1 = e.ret ∧
    (bh1750_read_light_intensity e s).2.light_intensity = s.light_intensity := by
  simp [bh1750_read_light_intensity, State.call, he]

theorem thread_append (pre rest : List Cycle) (hpre : Cycle.stop ∉ pre) (s : State) :
    bh1750_read_thread (pre ++ rest) s = bh1750_read_thread rest (bh1750_read_thread pre s).2 := by
  induction pre generalizing s with
  | nil => simp [bh1750_read_thread]
  | cons c pre ih =>
    cases c with
    | stop => simp at hpre
    | read r =>
      have h : Cycle.stop ∉ pre := fun hmem => hpre (List.mem_cons_of_mem _ hmem)
      simp only [List.cons_append, bh1750_read_thread]
      exact ih h _

theorem thread_running (pre : List Cycle) (hpre : Cycle.stop ∉ pre) (s : State) :
    (bh1750_read_thread pre s).1 = none := by
  induction pre generalizing s with
  | nil => simp [bh1750_read_thread]
  | cons c pre ih =>
    cases c with
    | stop => simp at hpre
    | read r =>
      have h : Cycle.stop ∉ pre := fun hmem => hpre (List.mem_cons_of_mem _ hmem)
      simp only [bh1750_read_thread]
      exact ih h _

theorem thread_exits (script : List Cycle) (h : Cycle.stop ∈ script) (s : State) :
    (bh1750_read_thread script s).1 = some 0 := by
  induction script generalizing s with
  | nil => simp at h
  | cons c script ih =>
    cases c with
    | stop => simp [bh1750_read_thread]
    | read r =>
      have h2 : Cycle.stop ∈ script := by simpa using h
      simp only [bh1750_read_thread]
      exact ih h2 _

/-- C4: a cycle whose bus read reports an error (negative return value) leaves
`light_intensity` as it was and leaves the loop of `bh1750_read_thread` running; the cycle
after it is executed (its calls are made) and, when its read succeeds with bytes
`(b0, b1)`, sets the sample to `256*b0 + b1`.  The thread returns only when
`kthread_should_stop()` has answered true, it then returns 0, and it does return as soon as
that answer comes. -/
theorem C4_read_error_recovered (pre : List Cycle) (hpre : Cycle.stop ∉ pre)
    (e : Recv) (he : e.ret < 0) (b0 b1 : Nat) (h0 : b0 < 256) (h1 : b1 < 256) (s : State) :
    (bh1750_read_thread (pre ++ [.read e]) s).1 = none ∧
    (bh1750_read_thread (pre ++ [.read e]) s).2.light_intensity =
      (bh1750_read_thread pre s).2.light_intensity ∧
    (bh1750_read_thread (pre ++ [.read e, .read ⟨2, b0, b1⟩]) s).1 = none ∧
    (bh1750_read_thread (pre ++ [.read e, .read ⟨2, b0, b1⟩]) s).2.light_intensity
      = 256 * b0 + b1 ∧
    (bh1750_read_thread (pre ++ [.read e, .read ⟨2, b0, b1⟩]) s).2.calls =
      (bh1750_read_thread (pre ++ [.read e]) s).2.calls ++
        [.kthread_should_stop false,
         .i2c_master_recv (bh1750_read_thread pre s).2.bh1750_i2c_client 2 2,
         .pr_info "BH1750: Light intensity: %u\n" [((256 * b0 + b1 : Nat) : Int)],
         .msleep 5000] ∧
    (bh1750_read_thread (pre ++ [.read e, .stop]) s).1 = some 0 ∧
    (bh1750_read_thread (pre ++ [.read e, .stop]) s).2.light_intensity =
      (bh1750_read_thread pre s).2.light_intensity ∧
    (∀ (script : List Cycle) (t : State) (v : Int),
      (bh1750_read_thread script t).1 = some v → v = 0 ∧ Cycle.stop ∈ script) ∧
    (∀ (script : List Cycle) (t : State),
      Cycle.stop ∈ script → (bh1750_read_thread script t).1 = some 0) := by
  have hor := shl8_or_eq b0 b1 h1
  have hlt : 256 * b0 + b1 < 65536 := by omega
  refine ⟨?_, ?_, ?_, ?_, ?_, ?_, ?_, ?_, ?_⟩
  · rw [thread_append pre _ hpre]
    simp [bh1750_read_thread]
  · rw [thread_append pre _ hpre]
    simp [bh1750_read_thread, bh1750_read_light_intensity, State.call, he]
  · rw [thread_append pre _ hpre]
    simp [bh1750_read_thread]
  · rw [thread_append pre _ hpre]
    simp [bh1750_read_thread, bh1750_read_light_intensity, State.call, he,
      Nat.mod_eq_of_lt h0, Nat.mod_eq_of_lt h1, hor, Nat.mod_eq_of_lt hlt]
  · rw [thread_append pre _ hpre, thread_append pre _ hpre]
    simp [bh1750_read_thread, bh1750_read_light_intensity, State.call, he,
      Nat.mod_eq_of_lt h0, Nat.mod_eq_of_lt h1, hor, Nat.mod_eq_of_lt hlt]
  · rw [thread_append pre _ hpre]
    simp [bh1750_read_thread]
  · rw [thread_append pre _ hpre]
    simp [bh1750_read_thread, bh1750_read_light_intensity, State.call, he]
  · intro script t v hv
    by_cases hs : Cycle.stop ∈ script
    · have := thread_exits script hs t
      rw [hv] at this
      exact ⟨by simpa using this, hs⟩
    · have := thread_running script hs t
      rw [hv] at this
      simp at this
  · intro script t hs
    exact thread_exits script hs t

theorem C4_read_error_recovered_witness :
    (bh1750_read_thread ([.read ⟨2, 0, 7⟩] ++ [.read ⟨-5, 9, 9⟩]) State.initial).2.light_intensity
      = (bh1750_read_thread [.read ⟨2, 0, 7⟩] State.initial).2.light_intensity ∧
    (bh1750_read_thread ([.read ⟨2, 0, 7⟩] ++ [.read ⟨-5, 9, 9⟩, .read ⟨2, 0x01, 0x2C⟩])
      State.initial).2.light_intensity = 256 * 0x01 + 0x2C :=
  ⟨(C4_read_error_recovered [.read ⟨2, 0, 7⟩] (by decide) ⟨-5, 9, 9⟩ (by decide) 0x01 0x2C
      (by decide) (by decide) State.initial).2.1,
   (C4_read_error_recovered [.read ⟨2, 0, 7⟩] (by decide) ⟨-5, 9, 9⟩ (by decide) 0x01 0x2C
      (by decide) (by decide) State.initial).2.2.2.1⟩

/-- C5 (evaluation of the code on short reads): when `i2c_master_recv` returns 1 or 0, fewer
than the 2 bytes asked for, `bh1750_read_light_intensity` returns 0 and overwrites
`light_intensity` (here 7) with the value decoded from the buffer (here 300), and prints it. -/
theorem C5_short_read_is_published :
    (bh1750_read_light_intensity ⟨1, 0x01, 0x2C⟩ { State.initial with light_intensity := 7 }).1
      = 0 ∧
    (bh1750_read_light_intensity ⟨1, 0x01, 0x2C⟩
      { State.initial with light_intensity := 7 }).2.light_intensity = 300 ∧
    (bh1750_read_light_intensity ⟨0, 0x01, 0x2C⟩ { State.initial with light_intensity := 7 }).1
      = 0 ∧
    (bh1750_read_light_intensity ⟨0, 0x01, 0x2C⟩
      { State.initial with light_intensity := 7 }).2.light_intensity = 300 ∧
    (bh1750_read_light_intensity ⟨1, 0x01, 0x2C⟩
      { State.initial with light_intensity := 7 }).2.calls =
      [.i2c_master_recv .null 2 1, .pr_info "BH1750: Light intensity: %u\n" [300]] := by
  simp [bh1750_read_light_intensity, State.call, State.initial]

/-! ## Module load: the failure paths -/

/-- When `i2c_new_client_device` reports failure as `NULL`, `bh1750_init_module` releases the
adapter once, never calls `i2c_add_driver` and returns `-ENODEV`. -/
theorem init_create_null (a : Nat) (r : Int) (s : State) :
    (bh1750_init_module ⟨.obj a, .null, r⟩ s).1 = -ENODEV ∧
    issued s (bh1750_init_module ⟨.obj a, .null, r⟩ s).2 =
      [.i2c_get_adapter I2C_BUS_AVAILABLE (.obj a),
       .i2c_new_client_device (.obj a) SLAVE_DEVICE_NAME BH1750_SLAVE_ADDR .null,
       .pr_err "BH1750: Could not create I2C client\n" [],
       .i2c_put_adapter (.obj a)] ∧
    (bh1750_init_module ⟨.obj a, .null, r⟩ s).2.bh1750_i2c_client = .null := by
  simp [bh1750_init_module, State.call, issued, Ptr.isNull]

/-- C2 (evaluation of the code on an error pointer): `i2c_new_client_device` fails with
`ERR_PTR(-16)` (`-EBUSY`), the adapter being available and `i2c_add_driver` answering 0.
The test `!bh1750_i2c_client` does not fire: `bh1750_init_module` makes no
`i2c_put_adapter` call, keeps the error pointer in `bh1750_i2c_client`, registers the
driver and returns 0. -/
theorem C2_create_error_pointer_not_detected :
    (bh1750_init_module ⟨.obj 1, .err 15, 0⟩ State.initial).1 = 0 ∧
    (bh1750_init_module ⟨.obj 1, .err 15, 0⟩ State.initial).2.calls =
      [.i2c_get_adapter 1 (.obj 1),
       .i2c_new_client_device (.obj 1) "BH1750" 0x23 (.err 15),
       .i2c_add_driver 0] ∧
    released (bh1750_init_module ⟨.obj 1, .err 15, 0⟩ State.initial).2.calls = [] ∧
    (bh1750_init_module ⟨.obj 1, .err 15, 0⟩ State.initial).2.bh1750_i2c_client = .err 15 ∧
    PTR_ERR (.err 15) = -16 ∧
    Resource.driver ∈ acquired (bh1750_init_module ⟨.obj 1, .err 15, 0⟩ State.initial).2.calls := by
  simp [bh1750_init_module, State.call, State.initial, Ptr.isNull, released, acquired,
    Call.releases, Call.acquires, I2C_BUS_AVAILABLE, SLAVE_DEVICE_NAME, BH1750_SLAVE_ADDR,
    PTR_ERR]
  rfl

/-- C3: with the adapter and the device handle acquired and `i2c_add_driver` returning a
negative code `r`, `bh1750_init_module` calls `i2c_unregister_device` on the handle once,
then `i2c_put_adapter` on the adapter once, makes no other release call, and returns `r`,
which is not zero. -/
theorem C3_registration_failure_rollback (a c : Nat) (r : Int) (hr : r < 0) (s : State) :
    (bh1750_init_module ⟨.obj a, .obj c, r⟩ s).1 = r ∧ r ≠ 0 ∧
    issued s (bh1750_init_module ⟨.obj a, .obj c, r⟩ s).2 =
      [.i2c_get_adapter I2C_BUS_AVAILABLE (.obj a),
       .i2c_new_client_device (.obj a) SLAVE_DEVICE_NAME BH1750_SLAVE_ADDR (.obj c),
       .i2c_add_driver r,
       .pr_err "BH1750: Could not register I2C driver\n" [],
       .i2c_unregister_device (.obj c),
       .i2c_put_adapter (.obj a)] ∧
    released (issued s (bh1750_init_module ⟨.obj a, .obj c, r⟩ s).2) =
      [.device (.obj c), .adapter (.obj a)] ∧
    (issued s (bh1750_init_module ⟨.obj a, .obj c, r⟩ s).2).count
      (.i2c_unregister_device (.obj c)) = 1 ∧
    (issued s (bh1750_init_module ⟨.obj a, .obj c, r⟩ s).2).count
      (.i2c_put_adapter (.obj a)) = 1 := by
  have hne : r ≠ 0 := by omega
  simp [bh1750_init_module, State.call, issued, Ptr.isNull, hr, hne, released, Call.releases]

theorem C3_registration_failure_rollback_witness :
    (bh1750_init_module ⟨.obj 1, .obj 2, -22⟩ State.initial).1 = -22 ∧
    released (issued State.initial (bh1750_init_module ⟨.obj 1, .obj 2, -22⟩ State.initial).2) =
      [.device (.obj 2), .adapter (.obj 1)] :=
  ⟨(C3_registration_failure_rollback 1 2 (-22) (by decide) State.initial).1,
   (C3_registration_failure_rollback 1 2 (-22) (by decide) State.initial).2.2.2.1⟩

/-! ## Bind and unbind -/

/-- C6 (evaluation of the code): `bh1750_remove` does nothing in the state before any bind,
but in the state left by a `bh1750_probe` whose `kthread_run` failed with `ERR_PTR(-12)` it
calls `kthread_stop` on the error pointer, and after a bind and one `bh1750_remove` a second
`bh1750_remove` calls `kthread_stop` again on the same task: the two states are changed, and
removing twice differs from removing once. -/
theorem C6_remove_without_worker :
    bh1750_remove (.obj 5) State.initial = State.initial ∧
    bh1750_remove (.obj 5) (bh1750_probe (.obj 5) (.err 11) State.initial).2 ≠
      (bh1750_probe (.obj 5) (.err 11) State.initial).2 ∧
    issued (bh1750_probe (.obj 5) (.err 11) State.initial).2
      (bh1750_remove (.obj 5) (bh1750_probe (.obj 5) (.err 11) State.initial).2) =
      [.kthread_stop (.err 11)] ∧
    bh1750_remove (.obj 5) (bh1750_remove (.obj 5) (bh1750_probe (.obj 5) (.obj 9) State.initial).2)
      ≠ bh1750_remove (.obj 5) (bh1750_probe (.obj 5) (.obj 9) State.initial).2 ∧
    (bh1750_remove (.obj 5)
        (bh1750_remove (.obj 5) (bh1750_probe (.obj 5) (.obj 9) State.initial).2)).calls =
      [.kthread_run "bh1750_read_thread" (.obj 9), .pr_info "BH1750 probe successful\n" [],
       .kthread_stop (.obj 9), .kthread_stop (.obj 9)] := by
  simp [bh1750_remove, bh1750_probe, State.call, State.initial, Ptr.isNull, IS_ERR, issued,
    PTR_ERR]

/-- C9 (evaluation of the code): after a `bh1750_probe` whose `kthread_run` failed with
`ERR_PTR(-12)`, exactly one `kthread_run` call was made and `-12` is returned, but
`bh1750_thread` holds the error pointer, which is not `NULL`: the driver's own test for a
worker to stop, `if (bh1750_thread)` in `bh1750_remove`, succeeds on it. -/
theorem C9_failed_probe_leaves_error_pointer :
    (bh1750_probe (.obj 5) (.err 11) State.initial).1 = -12 ∧
    (bh1750_probe (.obj 5) (.err 11) State.initial).2.calls =
      [.kthread_run "bh1750_read_thread" (.err 11),
       .pr_err "Failed to create kernel thread\n" []] ∧
    (bh1750_probe (.obj 5) (.err 11) State.initial).2.bh1750_thread = .err 11 ∧
    (!(bh1750_probe (.obj 5) (.err 11) State.initial).2.bh1750_thread.isNull) = true ∧
    (bh1750_remove (.obj 5) (bh1750_probe (.obj 5) (.err 11) State.initial).2).calls =
      [.kthread_run "bh1750_read_thread" (.err 11),
       .pr_err "Failed to create kernel thread\n" [],
       .kthread_stop (.err 11)] := by
  simp [bh1750_remove, bh1750_probe, State.call, State.initial, Ptr.isNull, IS_ERR, PTR_ERR]
  rfl

/-- What `bh1750_probe` does right: one `kthread_run` call per call of the function; the
result is 0 exactly when `kthread_run` returned a task, and it is the encoded negative error
number when `kthread_run` returned an error pointer. -/
theorem probe_result (client : Ptr) (s : State) :
    (∀ t : Nat, (bh1750_probe client (.obj t) s).1 = 0 ∧
      issued s (bh1750_probe client (.obj t) s).2 =
        [.kthread_run "bh1750_read_thread" (.obj t), .pr_info "BH1750 probe successful\n" []]) ∧
    (∀ n : Fin 4095, (bh1750_probe client (.err n) s).1 = Int.negSucc n.val ∧
      (bh1750_probe client (.err n) s).1 ≠ 0 ∧
      issued s (bh1750_probe client (.err n) s).2 =
        [.kthread_run "bh1750_read_thread" (.err n),
         .pr_err "Failed to create kernel thread\n" []]) := by
  constructor
  · intro t
    simp [bh1750_probe, State.call, IS_ERR, issued]
  · intro n
    simp [bh1750_probe, State.call, IS_ERR, PTR_ERR, issued]

/-! ## Module unload -/

/-- `bh1750_exit_module` makes the same three calls in every state. -/
theorem exit_calls (s : State) :
    (bh1750_exit_module s).calls = s.calls ++
      [.i2c_del_driver, .i2c_unregister_device s.bh1750_i2c_client,
       .i2c_put_adapter s.bh1750_i2c_adapter] := by
  simp [bh1750_exit_module, State.call]

/-- C7 (counterexample): the adapter is available and `i2c_new_client_device` returns
`NULL`.  `bh1750_init_module` fails and releases the adapter; `bh1750_exit_module` called on
the state it leaves unregisters a driver that was never registered and releases the same
adapter reference a second time. -/
theorem C7_teardown_after_failed_init_releases_twice :
    (bh1750_init_module ⟨.obj 1, .null, 0⟩ State.initial).1 ≠ 0 ∧
    Resource.driver ∈
      released (bh1750_exit_module (bh1750_init_module ⟨.obj 1, .null, 0⟩ State.initial).2).calls ∧
    Resource.driver ∉
      acquired (bh1750_exit_module (bh1750_init_module ⟨.obj 1, .null, 0⟩ State.initial).2).calls ∧
    (released (bh1750_exit_module (bh1750_init_module ⟨.obj 1, .null, 0⟩ State.initial).2).calls).count
      (.adapter (.obj 1)) = 2 ∧
    ¬ ReleasesOnlyAcquired
      (bh1750_exit_module (bh1750_init_module ⟨.obj 1, .null, 0⟩ State.initial).2).calls := by
  decide

/-- C7 (amended): take the outcomes in which every failure is one the function tests for
(`i2c_get_adapter` returns `NULL` or an adapter, `i2c_new_client_device` returns `NULL` or a
handle, `i2c_add_driver` returns 0 or a negative code).  When `bh1750_init_module` returns
0, `bh1750_exit_module` on the state it leaves releases the driver registration, the device
handle and the adapter reference, so that over both functions every acquired resource is
released exactly once and nothing else is released.  When `bh1750_init_module` returns a
non-zero code it has itself released, exactly once, everything it acquired; the calls of
`bh1750_exit_module` stay the same three, so on such a state they release what is not
held. -/
theorem C7_teardown_matches_successful_init (env : InitEnv) (a c : Nat)
    (ha : env.i2c_get_adapter = .null ∨ env.i2c_get_adapter = .obj a)
    (hc : env.i2c_new_client_device = .null ∨ env.i2c_new_client_device = .obj c)
    (hr : env.i2c_add_driver ≤ 0) :
    ((bh1750_init_module env State.initial).1 = 0 →
      ReleasesOnlyAcquired (bh1750_exit_module (bh1750_init_module env State.initial).2).calls ∧
      acquired (bh1750_init_module env State.initial).2.calls =
        [.adapter (.obj a), .device (.obj c), .driver] ∧
      released (bh1750_init_module env State.initial).2.calls = [] ∧
      released (bh1750_exit_module (bh1750_init_module env State.initial).2).calls =
        [.driver, .device (.obj c), .adapter (.obj a)]) ∧
    ((bh1750_init_module env State.initial).1 ≠ 0 →
      ReleasesOnlyAcquired (bh1750_init_module env State.initial).2.calls ∧
      ¬ ReleasesOnlyAcquired
        (bh1750_exit_module (bh1750_init_module env State.initial).2).calls) := by
  obtain ⟨ga, nc, r⟩ := env
  simp only at ha hc hr
  have hr2 : r = 0 ∨ r < 0 := by omega
  rcases ha with rfl | rfl <;> rcases hc with rfl | rfl <;> rcases hr2 with rfl | hneg <;>
    simp_all [bh1750_init_module, bh1750_exit_module, State.call, State.initial, Ptr.isNull,
      ReleasesOnlyAcquired, released, acquired, Call.releases, Call.acquires, ENODEV]

theorem C7_teardown_matches_successful_init_witness :
    ReleasesOnlyAcquired
      (bh1750_exit_module (bh1750_init_module ⟨.obj 1, .obj 2, 0⟩ State.initial).2).calls :=
  ((C7_teardown_matches_successful_init ⟨.obj 1, .obj 2, 0⟩ 1 2 (Or.inr rfl) (Or.inr rfl)
    (by decide)).1 (by decide)).1

/-- C8: after a `bh1750_init_module` in which the adapter, the device handle and the driver
registration were all obtained (it returns 0 after the calls `i2c_get_adapter`,
`i2c_new_client_device`, `i2c_add_driver`, in that order), `bh1750_exit_module` makes exactly
three calls, `i2c_del_driver`, `i2c_unregister_device` on the handle, `i2c_put_adapter` on
the adapter, in that order: the releases are the acquisitions in reverse order. -/
theorem C8_teardown_reverse_order (a c : Nat) (s : State) :
    (bh1750_init_module ⟨.obj a, .obj c, 0⟩ s).1 = 0 ∧
    issued s (bh1750_init_module ⟨.obj a, .obj c, 0⟩ s).2 =
      [.i2c_get_adapter I2C_BUS_AVAILABLE (.obj a),
       .i2c_new_client_device (.obj a) SLAVE_DEVICE_NAME BH1750_SLAVE_ADDR (.obj c),
       .i2c_add_driver 0] ∧
    issued (bh1750_init_module ⟨.obj a, .obj c, 0⟩ s).2
        (bh1750_exit_module (bh1750_init_module ⟨.obj a, .obj c, 0⟩ s).2) =
      [.i2c_del_driver, .i2c_unregister_device (.obj c), .i2c_put_adapter (.obj a)] ∧
    acquired (issued s (bh1750_init_module ⟨.obj a, .obj c, 0⟩ s).2) =
      [.adapter (.obj a), .device (.obj c), .driver] ∧
    released (issued (bh1750_init_module ⟨.obj a, .obj c, 0⟩ s).2
        (bh1750_exit_module (bh1750_init_module ⟨.obj a, .obj c, 0⟩ s).2)) =
      (acquired (issued s (bh1750_init_module ⟨.obj a, .obj c, 0⟩ s).2)).reverse := by
  simp [bh1750_init_module, bh1750_exit_module, State.call, issued, Ptr.isNull, released,
    acquired, Call.releases, Call.acquires]

end BH1750

namespace MajorMinor

/-- C10: `hello_world_init` returns 0 whatever `register_chrdev_region` returned for the
region of one device number starting at `MKDEV(233,0)` (major 233, minor 0); the value is
only recorded as the result of the call and is used nowhere.  `hello_world_exit` afterwards
calls `unregister_chrdev_region` on that region, also when the registration had failed. -/
theorem C10_init_ignores_registration_result (register_ret : Int) (calls : List Call) :
    (hello_world_init register_ret calls).1 = 0 ∧
    (hello_world_init register_ret calls).2 = calls ++
      [.register_chrdev_region dev 1 "akshat dev" register_ret,
       .printk_info "Major =%d Minor = %d \n" [233, 0],
       .printk_info "Kernel Module Inserted Successfully...\n" []] ∧
    hello_world_exit (hello_world_init register_ret calls).2 =
      (hello_world_init register_ret calls).2 ++
        [.unregister_chrdev_region dev 1,
         .printk_info "Kernel Module Removed Successfully...\n" []] ∧
    dev = MKDEV 233 0 ∧ MAJOR dev = 233 ∧ MINOR dev = 0 ∧
    (hello_world_init (-16) []).1 = 0 ∧
    Call.unregister_chrdev_region dev 1 ∈ hello_world_exit (hello_world_init (-16) []).2 := by
  have hM : MAJOR dev = 233 := by decide
  have hm : MINOR dev = 0 := by decide
  simp [hello_world_init, hello_world_exit, hM, hm]
  rfl

end MajorMinor
